import Mathlib

/-!
# Verification of the TrendSpotter analytics and narrative-grounding pipeline

Shallow embedding of `src/app.py` (class `DesktopInsightApp`): the period
resolver, metrics aggregator, delta calculator, channel ranker, capability
prober (`find_working_model`) and narrative stage (`generate_report_text`).

Modelling conventions:
* Python floats are modelled by `ℚ`; the IEEE non-finite values `nan`/`inf`
  produced by pandas (mean of an empty frame) and by float division by zero
  are modelled by `none : Option ℚ`.
* pandas timestamps are modelled by a calendar `Date` (year, month, day)
  with lexicographic order, faithful to timestamp comparison.
* The external generative service is an oracle `gen` returning `Option String`
  (`none` = any failure: network, quota, malformed response).
-/

namespace TrendSpotter

/-- A calendar date, standing for a pandas timestamp (time-of-day is never
used by the pipeline). -/
structure Date where
  year : Int
  month : Nat
  day : Nat
deriving DecidableEq, BEq, Repr

/-- Timestamp order, lexicographic on (year, month, day). -/
def Date.Le (a b : Date) : Prop :=
  a.year < b.year ∨ (a.year = b.year ∧
    (a.month < b.month ∨ (a.month = b.month ∧ a.day ≤ b.day)))

instance (a b : Date) : Decidable (Date.Le a b) := by
  unfold Date.Le; infer_instance

/-- Boolean form of the timestamp order, used by the record filters. -/
def Date.le (a b : Date) : Bool := decide (Date.Le a b)

/-- Gregorian leap-year rule (as implemented by pandas timestamps). -/
def isLeap (y : Int) : Bool := (y % 4 == 0 && y % 100 != 0) || (y % 400 == 0)

/-- Number of days in a month of a given year. -/
def daysInMonth (y : Int) (m : Nat) : Nat :=
  if m = 2 then (if isLeap y then 29 else 28)
  else if m = 4 ∨ m = 6 ∨ m = 9 ∨ m = 11 then 30
  else 31

/-- A date is a real calendar date. -/
def ValidDate (d : Date) : Prop :=
  1 ≤ d.month ∧ d.month ≤ 12 ∧ 1 ≤ d.day ∧ d.day ≤ daysInMonth d.year d.month

instance (d : Date) : Decidable (ValidDate d) := by
  unfold ValidDate; infer_instance

/-- `d.replace(day=1)`: the first day of the month containing `d`. -/
def firstOfMonth (d : Date) : Date := { d with day := 1 }

/-- Subtraction of one day (`d - pd.Timedelta(days=1)`). -/
def predDay (d : Date) : Date :=
  if 1 < d.day then { d with day := d.day - 1 }
  else if 1 < d.month then ⟨d.year, d.month - 1, daysInMonth d.year (d.month - 1)⟩
  else ⟨d.year - 1, 12, 31⟩

/-- One ingested activity observation (a row of the cleaned dataframe:
`Date`, `Company`, `Channel_Used`, `Acquisition_Cost`, `ROI`,
`Conversion_Rate`).  Costs arrive already normalised to numbers by the
out-of-scope ingestion step (`load_data`). -/
structure Record where
  date : Date
  company : String
  channel : String
  acquisitionCost : ℚ
  roi : ℚ
  convRate : ℚ
deriving DecidableEq, BEq, Repr

/-- Arithmetic mean of a list of rationals (only applied to non-empty lists
by the pipeline; the `l = []` value is never used). -/
def mean (l : List ℚ) : ℚ := l.sum / l.length

/-- pandas `Series.mean`: `nan` on an empty series, modelled as `none`. -/
def meanOpt (l : List ℚ) : Option ℚ :=
  if l.isEmpty then none else some (mean l)

/-- Aggregate metrics of a record subset (`get_metrics` in `analyze`):
spend is a sum (`0` on an empty subset, as pandas `sum` is), the two means
are `none` (nan) on an empty subset. -/
structure MetricSet where
  spend : ℚ
  roi : Option ℚ
  conv : Option ℚ
deriving DecidableEq, Repr

/-- `get_metrics(d)` from `analyze`: spend = sum of `Acquisition_Cost`,
roi = mean of `ROI`, conv = mean of `Conversion_Rate` times 100. -/
def getMetrics (l : List Record) : MetricSet :=
  { spend := (l.map (fun r => r.acquisitionCost)).sum
    roi := meanOpt (l.map (fun r => r.roi))
    conv := (meanOpt (l.map (fun r => r.convRate))).map (fun x => x * 100) }

/-- The sentinel previous-period metrics `{'spend':1,'roi':1,'conv':1}`
substituted when a client has no previous-period records. -/
def sentinelMetrics : MetricSet := ⟨1, some 1, some 1⟩

/-- `((c - p) / p) * 100` on floats: non-finite (`inf`/`nan`, modelled
`none`) when the divisor is zero. -/
def deltaPctQ (c p : ℚ) : Option ℚ :=
  if p = 0 then none else some ((c - p) / p * 100)

/-- The same on mean-valued (possibly nan) operands: nan propagates. -/
def deltaPct (c p : Option ℚ) : Option ℚ :=
  match c, p with
  | some c, some p => deltaPctQ c p
  | _, _ => none

/-- Percentage change between two MetricSets for each dimension
(the `delta` dict of `analyze`). -/
structure DeltaSet where
  spend_pct : Option ℚ
  roi_pct : Option ℚ
  conv_pct : Option ℚ
deriving DecidableEq, Repr

/-- The delta dict computed in `analyze` from `curr` and `prev`. -/
def mkDelta (curr prev : MetricSet) : DeltaSet :=
  { spend_pct := deltaPctQ curr.spend prev.spend
    roi_pct := deltaPct curr.roi prev.roi
    conv_pct := deltaPct curr.conv prev.conv }

/-- Substring containment, Python's `'gemini' in m`. -/
def strContains (s pat : String) : Bool :=
  s.data.tails.any (fun t => pat.data.isPrefixOf t)

/-- The fixed priority list of `find_working_model`. -/
def priorities : List String :=
  ["models/gemini-1.5-pro", "models/gemini-1.5-flash", "models/gemini-pro"]

/-- `find_working_model`, given the identifiers of the available models
(those supporting `generateContent`): first priority-list entry that is
available; else the first available identifier containing `"gemini"`;
else `none`. -/
def find_working_model (available : List String) : Option String :=
  match priorities.find? (fun p => available.contains p) with
  | some p => some p
  | none => available.find? (fun m => strContains m "gemini")

/-- Helper for `unique`: drop elements already `seen`, keep first
occurrences in order. -/
def uniqueAux {α : Type} [DecidableEq α] (seen : List α) : List α → List α
  | [] => []
  | x :: xs => if x ∈ seen then uniqueAux seen xs else x :: uniqueAux (x :: seen) xs

/-- pandas `Series.unique`: distinct values in order of first appearance. -/
def unique {α : Type} [DecidableEq α] (l : List α) : List α := uniqueAux [] l

/-- Insert into a `≤`-sorted list of strings. -/
def insertSorted (x : String) : List String → List String
  | [] => [x]
  | y :: ys => if x ≤ y then x :: y :: ys else y :: insertSorted x ys

/-- Sort strings ascending (pandas `groupby(..., sort=True)` key order). -/
def sortStrings : List String → List String
  | [] => []
  | x :: xs => insertSorted x (sortStrings xs)

/-- `df['Date'].max()`.  The `[]` value stands for NaT and is never consumed:
`analyze` on an empty frame loops over no companies. -/
def maxDate : List Record → Date
  | [] => ⟨0, 1, 1⟩
  | r :: rs => rs.foldl (fun a x => if a.le x.date then x.date else a) r.date

/-- `last_date = df['Date'].max()` in `analyze`. -/
def lastDate (records : List Record) : Date := maxDate records

/-- `current_month_start = last_date.replace(day=1)`. -/
def currentMonthStart (records : List Record) : Date :=
  firstOfMonth (lastDate records)

/-- `prev_month_end = current_month_start - pd.Timedelta(days=1)`. -/
def prevMonthEnd (records : List Record) : Date :=
  predDay (currentMonthStart records)

/-- `prev_month_start = prev_month_end.replace(day=1)`. -/
def prevMonthStart (records : List Record) : Date :=
  firstOfMonth (prevMonthEnd records)

/-- The current reporting window as a (start, end) pair of inclusive bounds,
as used by the filters in `analyze`. -/
def currentPeriod (records : List Record) : Date × Date :=
  (currentMonthStart records, lastDate records)

/-- The previous reporting window as a (start, end) pair of inclusive
bounds, as used by the filters in `analyze`. -/
def previousPeriod (records : List Record) : Date × Date :=
  (prevMonthStart records, prevMonthEnd records)

/-- `companies = df['Company'].unique()`. -/
def companies (records : List Record) : List String :=
  unique (records.map (fun r => r.company))

/-- `c_df = df[df['Company'] == company]`. -/
def clientDf (records : List Record) (company : String) : List Record :=
  records.filter (fun r => r.company == company)

/-- `curr_df`: the client's records with date in the current window,
inclusive at both ends. -/
def currDf (records : List Record) (company : String) : List Record :=
  (clientDf records company).filter
    (fun r => (currentMonthStart records).le r.date && r.date.le (lastDate records))

/-- `prev_df`: the client's records with date in the previous window,
inclusive at both ends. -/
def prevDf (records : List Record) (company : String) : List Record :=
  (clientDf records company).filter
    (fun r => (prevMonthStart records).le r.date && r.date.le (prevMonthEnd records))

/-- `curr_df.groupby('Channel_Used')['ROI'].mean()`: one (channel, mean ROI)
pair per distinct channel, keys ascending (pandas groups sort keys). -/
def channelMeans (l : List Record) : List (String × ℚ) :=
  (sortStrings (unique (l.map (fun r => r.channel)))).map
    (fun ch => (ch, mean ((l.filter (fun r => r.channel == ch)).map (fun r => r.roi))))

/-- Head of `sort_values(ascending=False)`: an entry of maximal mean ROI.
`sort_values` uses numpy quicksort, whose order among tied keys is
deterministic but unspecified; the tie-break is modelled as keeping the
first maximal entry in group-key order. -/
def argmaxRoi (x : String × ℚ) (xs : List (String × ℚ)) : String × ℚ :=
  xs.foldl (fun b y => if b.2 < y.2 then y else b) x

/-- `(best_chan_stats.index[0], best_chan_stats.iloc[0])` of `analyze`;
`none` when there are no rows to group. -/
def bestChannelStats (l : List Record) : Option (String × ℚ) :=
  match channelMeans l with
  | [] => none
  | x :: xs => some (argmaxRoi x xs)

/-- `curr_df.set_index('Date').resample('D')['ROI'].mean()`: the daily mean
ROI series, here restricted to observed dates (`resample` additionally emits
intervening empty days with nan mean; the series is only carried through to
the external renderer, never read by the pipeline). -/
def trendData (l : List Record) : List (Date × ℚ) :=
  (unique (l.map (fun r => r.date))).map
    (fun d => (d, mean ((l.filter (fun r => r.date == d)).map (fun r => r.roi))))

/-- A per-client report record (the dict stored in `self.client_reports`). -/
structure ClientReport where
  current : MetricSet
  prev : MetricSet
  delta : DeltaSet
  best_channel : String
  best_channel_roi : ℚ
  trend_data : List (Date × ℚ)
  narrative : String
deriving DecidableEq, Repr

/-- The body of the per-company loop of `analyze`: `none` when `curr_df` is
empty (the `continue`), otherwise the populated report. -/
def makeReport (records : List Record) (company : String) : Option ClientReport :=
  let curr_df := currDf records company
  let prev_df := prevDf records company
  if curr_df.isEmpty then none else
  let curr := getMetrics curr_df
  let prev := if prev_df.isEmpty then sentinelMetrics else getMetrics prev_df
  let bc := match bestChannelStats curr_df with
    | some s => s
    | none => ("N/A", 0)
  some { current := curr, prev := prev, delta := mkDelta curr prev,
         best_channel := bc.1, best_channel_roi := bc.2,
         trend_data := trendData curr_df, narrative := "Pending..." }

/-- `analyze`: one report per company of the dataset whose current-period
subset is non-empty, in company first-appearance order. -/
def analyze (records : List Record) : List (String × ClientReport) :=
  (companies records).filterMap (fun c => (makeReport records c).map (fun r => (c, r)))

/-- Markdown cleaning of a successful response
(`response.text.replace('**','').replace('##','')`). -/
def sanitizeNarrative (s : String) : String :=
  (s.replace "**" "").replace "##" ""

/-- One iteration of `generate_report_text` for one client.  `hasModel` is
`self.api_key and self.model`; `gen` is the external call
`self.model.generate_content` composed with the prompt construction (the
prompt is a pure function of the company and its report), returning `none`
on any raised failure. -/
def applyNarrative (hasModel : Bool) (gen : String → ClientReport → Option String)
    (company : String) (r : ClientReport) : ClientReport :=
  { r with narrative :=
      if hasModel then
        match gen company r with
        | some t => sanitizeNarrative t
        | none => "AI Unavailable."
      else "Demo Mode: AI analysis skipped." }

/-- `generate_report_text`: sets each report's narrative in place, touching
nothing else. -/
def generate_report_text (hasModel : Bool) (gen : String → ClientReport → Option String)
    (reports : List (String × ClientReport)) : List (String × ClientReport) :=
  reports.map (fun p => (p.1, applyNarrative hasModel gen p.1 p.2))

/-! ## Helper lemmas -/

theorem mem_uniqueAux {α : Type} [DecidableEq α] (seen : List α) (l : List α) (a : α) :
    a ∈ uniqueAux seen l ↔ a ∈ l ∧ a ∉ seen := by
  induction l generalizing seen with
  | nil => simp [uniqueAux]
  | cons x xs ih =>
    by_cases hx : x ∈ seen
    · simp only [uniqueAux, if_pos hx, ih, List.mem_cons]
      constructor
      · rintro ⟨h1, h2⟩; exact ⟨Or.inr h1, h2⟩
      · rintro ⟨h1 | h1, h2⟩
        · exact absurd (h1 ▸ hx) h2
        · exact ⟨h1, h2⟩
    · simp only [uniqueAux, if_neg hx, List.mem_cons, ih]
      constructor
      · rintro (rfl | ⟨h1, h2⟩)
        · exact ⟨Or.inl rfl, hx⟩
        · exact ⟨Or.inr h1, fun hs => h2 (Or.inr hs)⟩
      · rintro ⟨rfl | h1, h2⟩
        · exact Or.inl rfl
        · by_cases hax : a = x
          · exact Or.inl hax
          · exact Or.inr ⟨h1, fun hs => hs.elim hax h2⟩

theorem mem_unique {α : Type} [DecidableEq α] (l : List α) (a : α) :
    a ∈ unique l ↔ a ∈ l := by
  simp [unique, mem_uniqueAux]

theorem nodup_uniqueAux {α : Type} [DecidableEq α] (seen : List α) (l : List α) :
    (uniqueAux seen l).Nodup := by
  induction l generalizing seen with
  | nil => simp [uniqueAux]
  | cons x xs ih =>
    by_cases hx : x ∈ seen
    · simpa [uniqueAux, if_pos hx] using ih seen
    · simp only [uniqueAux, if_neg hx, List.nodup_cons]
      refine ⟨fun hmem => ?_, ih (x :: seen)⟩
      exact ((mem_uniqueAux _ _ _).1 hmem).2 (List.mem_cons_self x seen)

theorem nodup_unique {α : Type} [DecidableEq α] (l : List α) : (unique l).Nodup :=
  nodup_uniqueAux [] l

theorem mem_insertSorted (x a : String) (l : List String) :
    a ∈ insertSorted x l ↔ a = x ∨ a ∈ l := by
  induction l with
  | nil => simp [insertSorted]
  | cons y ys ih =>
    simp only [insertSorted]
    split
    · simp [List.mem_cons]
    · simp only [List.mem_cons, ih]
      tauto

theorem mem_sortStrings (l : List String) (a : String) :
    a ∈ sortStrings l ↔ a ∈ l := by
  induction l with
  | nil => simp [sortStrings]
  | cons x xs ih => simp [sortStrings, mem_insertSorted, ih]

theorem argmaxRoi_mem (x : String × ℚ) (xs : List (String × ℚ)) :
    argmaxRoi x xs ∈ x :: xs := by
  induction xs generalizing x with
  | nil => simp [argmaxRoi]
  | cons y ys ih =>
    by_cases hxy : x.2 < y.2
    · have step : argmaxRoi x (y :: ys) = argmaxRoi y ys := by
        simp [argmaxRoi, hxy]
      rw [step]
      rcases List.mem_cons.1 (ih y) with h | h
      · simp [h]
      · simp [h]
    · have step : argmaxRoi x (y :: ys) = argmaxRoi x ys := by
        simp [argmaxRoi, hxy]
      rw [step]
      rcases List.mem_cons.1 (ih x) with h | h
      · simp [h]
      · simp [h]

theorem argmaxRoi_ge (x : String × ℚ) (xs : List (String × ℚ)) :
    ∀ q ∈ x :: xs, q.2 ≤ (argmaxRoi x xs).2 := by
  induction xs generalizing x with
  | nil =>
    intro q hq
    simp only [List.mem_singleton] at hq
    simp [hq, argmaxRoi]
  | cons y ys ih =>
    intro q hq
    by_cases hxy : x.2 < y.2
    · have step : argmaxRoi x (y :: ys) = argmaxRoi y ys := by
        simp [argmaxRoi, hxy]
      rw [step]
      have htop : y.2 ≤ (argmaxRoi y ys).2 := ih y y (List.mem_cons_self _ _)
      rcases List.mem_cons.1 hq with rfl | hq'
      · exact le_trans (le_of_lt hxy) htop
      · exact ih y q hq'
    · have step : argmaxRoi x (y :: ys) = argmaxRoi x ys := by
        simp [argmaxRoi, hxy]
      rw [step]
      have htop : x.2 ≤ (argmaxRoi x ys).2 := ih x x (List.mem_cons_self _ _)
      rcases List.mem_cons.1 hq with rfl | hq'
      · exact htop
      · rcases List.mem_cons.1 hq' with rfl | hq''
        · exact le_trans (le_of_not_lt hxy) htop
        · exact ih x q (List.mem_cons_of_mem _ hq'')

theorem makeReport_isSome (records : List Record) (company : String) :
    (makeReport records company).isSome = !(currDf records company).isEmpty := by
  unfold makeReport
  cases h : (currDf records company).isEmpty <;> simp [h]

theorem makeReport_eq_some (records : List Record) (company : String) (r : ClientReport)
    (h : makeReport records company = some r) :
    (currDf records company).isEmpty = false
    ∧ r.current = getMetrics (currDf records company)
    ∧ r.prev = (if (prevDf records company).isEmpty then sentinelMetrics
        else getMetrics (prevDf records company))
    ∧ r.delta = mkDelta r.current r.prev
    ∧ r.best_channel = (match bestChannelStats (currDf records company) with
        | some s => s | none => ("N/A", 0)).1
    ∧ r.best_channel_roi = (match bestChannelStats (currDf records company) with
        | some s => s | none => ("N/A", 0)).2
    ∧ r.trend_data = trendData (currDf records company)
    ∧ r.narrative = "Pending..." := by
  unfold makeReport at h
  cases hce : (currDf records company).isEmpty with
  | true =>
    simp only [hce, if_true] at h
    exact Option.noConfusion h
  | false =>
    simp only [hce, Bool.false_eq_true, if_false, Option.some.injEq] at h
    subst h
    exact ⟨rfl, rfl, rfl, rfl, rfl, rfl, rfl, rfl⟩

theorem mem_analyze (records : List Record) (company : String) (r : ClientReport) :
    (company, r) ∈ analyze records ↔
      company ∈ companies records ∧ makeReport records company = some r := by
  unfold analyze
  rw [List.mem_filterMap]
  constructor
  · rintro ⟨c, hc, hf⟩
    rcases Option.map_eq_some'.1 hf with ⟨rep, hrep, heq⟩
    injection heq with h1 h2
    subst h1; subst h2
    exact ⟨hc, hrep⟩
  · rintro ⟨hc, hm⟩
    exact ⟨company, hc, by simp [hm]⟩

theorem map_fst_filterMap_reports (records : List Record) (l : List String) :
    (l.filterMap (fun c => (makeReport records c).map (fun r => (c, r)))).map Prod.fst
      = l.filter (fun c => !(currDf records c).isEmpty) := by
  induction l with
  | nil => simp
  | cons c cs ih =>
    rw [List.filterMap_cons, List.filter_cons]
    have hs := makeReport_isSome records c
    cases hm : makeReport records c with
    | none =>
      rw [hm] at hs
      have hce : (!(currDf records c).isEmpty) = false := hs.symm
      simp [hce, ih]
    | some rep =>
      rw [hm] at hs
      have hce : (!(currDf records c).isEmpty) = true := hs.symm
      simp [hce, ih]

/-! ## Claim theorems -/

/-- C1: For every client report produced by `analyze`, and each of the three
dimensions spend/ROI/conversion, the delta is `(curr - prev) / prev * 100`,
where `prev` is the aggregated previous-period MetricSet when the client has
previous-period records, and the sentinel MetricSet (spend=1, roi=1, conv=1)
when it has none. -/
theorem delta_calculator_spec (records : List Record) (company : String) (r : ClientReport)
    (h : (company, r) ∈ analyze records) :
    r.current = getMetrics (currDf records company)
    ∧ r.prev = (if (prevDf records company).isEmpty then sentinelMetrics
        else getMetrics (prevDf records company))
    ∧ r.delta = mkDelta r.current r.prev
    ∧ (r.prev.spend ≠ 0 →
        r.delta.spend_pct = some ((r.current.spend - r.prev.spend) / r.prev.spend * 100))
    ∧ (∀ c p, r.current.roi = some c → r.prev.roi = some p → p ≠ 0 →
        r.delta.roi_pct = some ((c - p) / p * 100))
    ∧ (∀ c p, r.current.conv = some c → r.prev.conv = some p → p ≠ 0 →
        r.delta.conv_pct = some ((c - p) / p * 100)) := by
  have hm := ((mem_analyze records company r).1 h).2
  obtain ⟨-, hcur, hprev, hdelta, -, -, -, -⟩ := makeReport_eq_some records company r hm
  refine ⟨hcur, hprev, hdelta, ?_, ?_, ?_⟩
  · intro hs
    rw [hdelta]
    simp [mkDelta, deltaPctQ, hs]
  · intro c p hc hp hpne
    rw [hdelta]
    simp [mkDelta, deltaPct, hc, hp, deltaPctQ, hpne]
  · intro c p hc hp hpne
    rw [hdelta]
    simp [mkDelta, deltaPct, hc, hp, deltaPctQ, hpne]

/-- Concrete dataset for the C1 witness: one client with one current-period
and one previous-period record. -/
def recsW1 : List Record :=
  [⟨⟨2024, 2, 10⟩, "Acme", "Search", 100, 2, 3⟩,
   ⟨⟨2024, 1, 5⟩, "Acme", "Search", 40, 1, 2⟩]

/-- The (unique) report of the `recsW1` run, written as the pipeline
computes it. -/
def reportW1 : ClientReport :=
  { current := getMetrics (currDf recsW1 "Acme")
    prev := if (prevDf recsW1 "Acme").isEmpty then sentinelMetrics
      else getMetrics (prevDf recsW1 "Acme")
    delta := mkDelta (getMetrics (currDf recsW1 "Acme"))
      (if (prevDf recsW1 "Acme").isEmpty then sentinelMetrics
       else getMetrics (prevDf recsW1 "Acme"))
    best_channel := (match bestChannelStats (currDf recsW1 "Acme") with
        | some s => s | none => ("N/A", 0)).1
    best_channel_roi := (match bestChannelStats (currDf recsW1 "Acme") with
        | some s => s | none => ("N/A", 0)).2
    trend_data := trendData (currDf recsW1 "Acme")
    narrative := "Pending..." }

/-- Witness for C1 on `recsW1`: the report is in the run's output, its
previous spend (40, from real previous-period data) is a non-zero divisor,
and the spend delta is exactly the claimed formula. -/
theorem delta_calculator_spec_witness :
    (("Acme", reportW1) ∈ analyze recsW1)
    ∧ reportW1.prev.spend ≠ 0
    ∧ reportW1.delta.spend_pct
        = some ((reportW1.current.spend - reportW1.prev.spend) / reportW1.prev.spend * 100) := by
  have heval : analyze recsW1 = [("Acme", reportW1)] := rfl
  have hmem : ("Acme", reportW1) ∈ analyze recsW1 := by
    rw [heval]; exact List.mem_singleton_self _
  have hspend40 : reportW1.prev.spend = 40 + 0 := rfl
  have hspend : reportW1.prev.spend ≠ 0 := by rw [hspend40]; norm_num
  exact ⟨hmem, hspend, (delta_calculator_spec recsW1 "Acme" reportW1 hmem).2.2.2.1 hspend⟩

/-- C2: the current window runs from the first of the month of the maximum
date `D` to `D`; the previous window is the whole prior calendar month:
its end is one day before the current start, its start is the first of its
month, its end is the last day of its month, and a January `D` rolls over
the year boundary to December of the previous year. -/
theorem period_resolver_spec (records : List Record) (h : ValidDate (lastDate records)) :
    (currentPeriod records).2 = lastDate records
    ∧ (currentPeriod records).1 = firstOfMonth (lastDate records)
    ∧ (previousPeriod records).2 = predDay (currentPeriod records).1
    ∧ (previousPeriod records).1 = firstOfMonth (previousPeriod records).2
    ∧ (previousPeriod records).2.day
        = daysInMonth (previousPeriod records).2.year (previousPeriod records).2.month
    ∧ ((lastDate records).month = 1 →
        previousPeriod records
          = (⟨(lastDate records).year - 1, 12, 1⟩, ⟨(lastDate records).year - 1, 12, 31⟩))
    ∧ (1 < (lastDate records).month →
        previousPeriod records
          = (⟨(lastDate records).year, (lastDate records).month - 1, 1⟩,
             ⟨(lastDate records).year, (lastDate records).month - 1,
               daysInMonth (lastDate records).year ((lastDate records).month - 1)⟩)) := by
  obtain ⟨h1, h2, -, -⟩ := h
  by_cases hm : 1 < (lastDate records).month
  · have hpred : prevMonthEnd records
        = ⟨(lastDate records).year, (lastDate records).month - 1,
           daysInMonth (lastDate records).year ((lastDate records).month - 1)⟩ := by
      show predDay (firstOfMonth (lastDate records)) = _
      unfold predDay firstOfMonth
      simp [hm]
    refine ⟨rfl, rfl, rfl, rfl, ?_, ?_, ?_⟩
    · show (prevMonthEnd records).day
        = daysInMonth (prevMonthEnd records).year (prevMonthEnd records).month
      rw [hpred]
    · intro hc; omega
    · intro _
      show (firstOfMonth (prevMonthEnd records), prevMonthEnd records) = _
      rw [hpred]; rfl
  · have hm1 : (lastDate records).month = 1 := by omega
    have hpred : prevMonthEnd records = ⟨(lastDate records).year - 1, 12, 31⟩ := by
      show predDay (firstOfMonth (lastDate records)) = _
      unfold predDay firstOfMonth
      simp [hm1]
    refine ⟨rfl, rfl, rfl, rfl, ?_, ?_, ?_⟩
    · show (prevMonthEnd records).day
        = daysInMonth (prevMonthEnd records).year (prevMonthEnd records).month
      rw [hpred]
      simp [daysInMonth]
    · intro _
      show (firstOfMonth (prevMonthEnd records), prevMonthEnd records) = _
      rw [hpred]; rfl
    · intro hc; omega

/-- Concrete dataset for the C2 witness: the maximum date falls in January,
exercising the year-boundary rollover. -/
def recsW2 : List Record := [⟨⟨2024, 1, 15⟩, "Acme", "Search", 100, 2, 3⟩]

/-- Witness for C2 on `recsW2`: a January 2024 maximum date yields the
previous window [2023-12-01, 2023-12-31]. -/
theorem period_resolver_spec_witness :
    ValidDate (lastDate recsW2)
    ∧ (lastDate recsW2).month = 1
    ∧ previousPeriod recsW2 = (⟨2023, 12, 1⟩, ⟨2023, 12, 31⟩) := by
  refine ⟨by decide, by decide, ?_⟩
  have h := (period_resolver_spec recsW2 (by decide)).2.2.2.2.2.1 (by decide)
  rw [h]; decide

/-- C3: for each client both period subsets are selected by date inclusively
at both ends — the current subset is exactly the client's records with date
in the current window, and the previous subset exactly those with date in
the previous window; on a non-empty subset, spend is the sum of acquisition
costs, ROI the arithmetic mean of ROI values, and conversion the arithmetic
mean of conversion rates times 100; and the spend sum is invariant under
reordering of the records. -/
theorem metrics_aggregator_spec (records : List Record) (company : String)
    (l lp : List Record) (hl : l ≠ []) (hperm : l.Perm lp) :
    (∀ r, r ∈ currDf records company ↔
        r ∈ records ∧ r.company = company
          ∧ Date.Le (currentMonthStart records) r.date ∧ Date.Le r.date (lastDate records))
    ∧ (∀ r, r ∈ prevDf records company ↔
        r ∈ records ∧ r.company = company
          ∧ Date.Le (prevMonthStart records) r.date ∧ Date.Le r.date (prevMonthEnd records))
    ∧ (getMetrics l).spend = (l.map (fun r => r.acquisitionCost)).sum
    ∧ (getMetrics l).roi = some ((l.map (fun r => r.roi)).sum / (l.length : ℚ))
    ∧ (getMetrics l).conv = some ((l.map (fun r => r.convRate)).sum / (l.length : ℚ) * 100)
    ∧ (getMetrics l).spend = (getMetrics lp).spend := by
  have hne : ∀ (f : Record → ℚ), (l.map f).isEmpty = false := by
    intro f
    cases l with
    | nil => exact absurd rfl hl
    | cons x xs => rfl
  refine ⟨?_, ?_, rfl, ?_, ?_, ?_⟩
  · intro r
    simp only [currDf, clientDf, List.mem_filter, Bool.and_eq_true, beq_iff_eq, Date.le,
      decide_eq_true_eq, and_assoc]
  · intro r
    simp only [prevDf, clientDf, List.mem_filter, Bool.and_eq_true, beq_iff_eq, Date.le,
      decide_eq_true_eq, and_assoc]
  · simp [getMetrics, meanOpt, hne, mean]
  · simp [getMetrics, meanOpt, hne, mean]
  · have hsum := (hperm.map (fun r => r.acquisitionCost)).sum_eq
    simpa [getMetrics] using hsum

/-- Records for the C3 witness. -/
def recW3a : Record := ⟨⟨2024, 2, 1⟩, "Acme", "Search", 100, 3, 2⟩

/-- Records for the C3 witness. -/
def recW3b : Record := ⟨⟨2024, 2, 2⟩, "Acme", "Social", 50, 1, 4⟩

/-- Witness for C3: a non-empty two-record subset and its reversal have the
same aggregated spend. -/
theorem metrics_aggregator_spec_witness :
    ([recW3a, recW3b] ≠ ([] : List Record))
    ∧ List.Perm [recW3a, recW3b] [recW3b, recW3a]
    ∧ (getMetrics [recW3a, recW3b]).spend = (getMetrics [recW3b, recW3a]).spend := by
  have hp : List.Perm [recW3a, recW3b] [recW3b, recW3a] := List.Perm.swap recW3b recW3a []
  have hl : [recW3a, recW3b] ≠ ([] : List Record) := by simp
  exact ⟨hl, hp,
    (metrics_aggregator_spec [] "Acme" [recW3a, recW3b] [recW3b, recW3a] hl hp).2.2.2.2.2⟩

/-- C4 counterexample: on the empty subset the aggregator's spend is the
number zero (pandas sum of an empty frame), contradicting the claim that
every component, spend in particular, is undefined and not zero. -/
theorem metrics_empty_spend_zero : (getMetrics ([] : List Record)).spend = 0 := rfl

/-- C4 amended: on the empty subset, the ROI and conversion means are
undefined (nan, modelled `none`), but spend is the empty sum, i.e. zero. -/
theorem metrics_empty_spec : getMetrics ([] : List Record) = ⟨0, none, none⟩ := rfl

/-- C5: on a non-empty record subset the Channel Ranker returns a
(channel, mean ROI) pair from the per-channel mean-ROI table, the channel
occurs in the subset, and its mean ROI is greater than or equal to every
channel's mean ROI; the selection (including tie-break) is a pure function
of the subset, hence deterministic and reproducible. -/
theorem channel_ranker_spec (l : List Record) (hl : l ≠ []) :
    ∃ p, bestChannelStats l = some p
      ∧ p ∈ channelMeans l
      ∧ p.1 ∈ l.map (fun r => r.channel)
      ∧ (∀ q ∈ channelMeans l, q.2 ≤ p.2) := by
  have hne : channelMeans l ≠ [] := by
    cases l with
    | nil => exact absurd rfl hl
    | cons x xs =>
      intro hcm
      have hxmem : x.channel ∈ sortStrings (unique ((x :: xs).map (fun r => r.channel))) := by
        rw [mem_sortStrings, mem_unique]
        exact List.mem_map_of_mem _ (List.mem_cons_self _ _)
      unfold channelMeans at hcm
      rw [List.map_eq_nil_iff] at hcm
      rw [hcm] at hxmem
      exact absurd hxmem (List.not_mem_nil _)
  obtain ⟨x, xs, hcm⟩ := List.exists_cons_of_ne_nil hne
  have hmem : argmaxRoi x xs ∈ channelMeans l := by
    rw [hcm]; exact argmaxRoi_mem x xs
  refine ⟨argmaxRoi x xs, ?_, hmem, ?_, ?_⟩
  · unfold bestChannelStats
    rw [hcm]
  · rcases List.mem_map.1 (by rw [channelMeans] at hmem; exact hmem) with ⟨ch, hch, hpair⟩
    rw [← hpair]
    rw [mem_sortStrings, mem_unique] at hch
    exact hch
  · rw [hcm]; exact argmaxRoi_ge x xs

/-- Witness for C5 on the two-record, two-channel subset
`[recW3a, recW3b]`. -/
theorem channel_ranker_spec_witness :
    ([recW3a, recW3b] ≠ ([] : List Record))
    ∧ ∃ p, bestChannelStats [recW3a, recW3b] = some p
        ∧ p ∈ channelMeans [recW3a, recW3b]
        ∧ p.1 ∈ [recW3a, recW3b].map (fun r => r.channel)
        ∧ (∀ q ∈ channelMeans [recW3a, recW3b], q.2 ≤ p.2) :=
  ⟨by simp, channel_ranker_spec [recW3a, recW3b] (by simp)⟩

/-- C6: the Capability Prober returns the highest-priority entry of
`['models/gemini-1.5-pro', 'models/gemini-1.5-flash', 'models/gemini-pro']`
present in the available set; if none is present, the first available
identifier containing "gemini"; if still none, no model. -/
theorem capability_prober_spec (available : List String) :
    ("models/gemini-1.5-pro" ∈ available →
        find_working_model available = some "models/gemini-1.5-pro")
    ∧ ("models/gemini-1.5-pro" ∉ available → "models/gemini-1.5-flash" ∈ available →
        find_working_model available = some "models/gemini-1.5-flash")
    ∧ ("models/gemini-1.5-pro" ∉ available → "models/gemini-1.5-flash" ∉ available →
        "models/gemini-pro" ∈ available →
        find_working_model available = some "models/gemini-pro")
    ∧ ("models/gemini-1.5-pro" ∉ available → "models/gemini-1.5-flash" ∉ available →
        "models/gemini-pro" ∉ available →
        find_working_model available = available.find? (fun m => strContains m "gemini"))
    ∧ ((∀ m ∈ available, strContains m "gemini" = false) →
        find_working_model available = none) := by
  have hcont : ∀ a : String, available.contains a = true ↔ a ∈ available := by
    intro a
    simp only [List.contains]
    exact List.elem_iff
  have hstep : ∀ (a : String) (rest : List String), a ∈ available →
      (a :: rest).find? (fun p => available.contains p) = some a := by
    intro a rest ha
    exact List.find?_cons_of_pos rest (by rw [hcont]; exact ha)
  have hskip : ∀ (a : String) (rest : List String), a ∉ available →
      (a :: rest).find? (fun p => available.contains p)
        = rest.find? (fun p => available.contains p) := by
    intro a rest ha
    exact List.find?_cons_of_neg rest (by rw [hcont]; exact ha)
  refine ⟨?_, ?_, ?_, ?_, ?_⟩
  · intro h1
    unfold find_working_model priorities
    rw [hstep _ _ h1]
  · intro h1 h2
    unfold find_working_model priorities
    rw [hskip _ _ h1, hstep _ _ h2]
  · intro h1 h2 h3
    unfold find_working_model priorities
    rw [hskip _ _ h1, hskip _ _ h2, hstep _ _ h3]
  · intro h1 h2 h3
    unfold find_working_model priorities
    rw [hskip _ _ h1, hskip _ _ h2, hskip _ _ h3]
    rfl
  · intro hall
    have h1 : "models/gemini-1.5-pro" ∉ available := fun hmem => by
      have := hall _ hmem
      rw [show strContains "models/gemini-1.5-pro" "gemini" = true from by decide] at this
      exact Bool.noConfusion this
    have h2 : "models/gemini-1.5-flash" ∉ available := fun hmem => by
      have := hall _ hmem
      rw [show strContains "models/gemini-1.5-flash" "gemini" = true from by decide] at this
      exact Bool.noConfusion this
    have h3 : "models/gemini-pro" ∉ available := fun hmem => by
      have := hall _ hmem
      rw [show strContains "models/gemini-pro" "gemini" = true from by decide] at this
      exact Bool.noConfusion this
    unfold find_working_model priorities
    rw [hskip _ _ h1, hskip _ _ h2, hskip _ _ h3]
    simp only [List.find?_nil]
    rw [List.find?_eq_none]
    intro x hx
    rw [hall x hx]
    exact Bool.noConfusion

/-- Witness for C6: the spec's own scenarios — the highest-priority entry
wins even with a lower one present; `{"models/gemini-pro"}` resolves to
`"models/gemini-pro"`; the "gemini" fallback; and failure when nothing
matches. -/
theorem capability_prober_spec_witness :
    ("models/gemini-1.5-pro" ∈ ["models/gemini-1.5-flash", "models/gemini-1.5-pro"]
      ∧ find_working_model ["models/gemini-1.5-flash", "models/gemini-1.5-pro"]
          = some "models/gemini-1.5-pro")
    ∧ ("models/gemini-1.5-pro" ∉ ["models/gemini-pro"]
      ∧ "models/gemini-1.5-flash" ∉ ["models/gemini-pro"]
      ∧ "models/gemini-pro" ∈ ["models/gemini-pro"]
      ∧ find_working_model ["models/gemini-pro"] = some "models/gemini-pro")
    ∧ find_working_model ["other", "my-gemini-model"] = some "my-gemini-model"
    ∧ ((∀ m ∈ ["alpha", "beta"], strContains m "gemini" = false)
      ∧ find_working_model ["alpha", "beta"] = none) := by
  refine ⟨⟨by decide, ?_⟩, ⟨by decide, by decide, by decide, ?_⟩, ?_, ⟨by decide, ?_⟩⟩
  · exact (capability_prober_spec _).1 (by decide)
  · exact (capability_prober_spec _).2.2.1 (by decide) (by decide) (by decide)
  · have h := (capability_prober_spec ["other", "my-gemini-model"]).2.2.2.1
      (by decide) (by decide) (by decide)
    rw [h]; decide
  · exact (capability_prober_spec _).2.2.2.2 (by decide)

/-- C7: the narrative stage never drops a report: the output keeps one entry
per input entry; every input report reappears with all computed fields
unchanged; a failed generation call sets the narrative to the fixed
fallback "AI Unavailable."; with no usable model every narrative is set to
the fixed demo-mode fallback "Demo Mode: AI analysis skipped." (the stage
is a total function, so it cannot raise). -/
theorem narrative_fallback_spec (hasModel : Bool) (gen : String → ClientReport → Option String)
    (reports : List (String × ClientReport)) :
    (generate_report_text hasModel gen reports).length = reports.length
    ∧ (∀ company r, (company, r) ∈ reports →
        ∃ rr, (company, rr) ∈ generate_report_text hasModel gen reports
          ∧ rr.current = r.current ∧ rr.prev = r.prev ∧ rr.delta = r.delta
          ∧ rr.best_channel = r.best_channel ∧ rr.best_channel_roi = r.best_channel_roi
          ∧ rr.trend_data = r.trend_data
          ∧ (hasModel = false → rr.narrative = "Demo Mode: AI analysis skipped.")
          ∧ (hasModel = true → gen company r = none → rr.narrative = "AI Unavailable.")
          ∧ (∀ t, hasModel = true → gen company r = some t →
              rr.narrative = sanitizeNarrative t)) := by
  constructor
  · simp [generate_report_text]
  · intro company r hmem
    refine ⟨applyNarrative hasModel gen company r, ?_, rfl, rfl, rfl, rfl, rfl, rfl, ?_, ?_, ?_⟩
    · unfold generate_report_text
      exact List.mem_map.2 ⟨(company, r), hmem, rfl⟩
    · intro hm; simp [applyNarrative, hm]
    · intro hm hg; simp [applyNarrative, hm, hg]
    · intro t hm hg; simp [applyNarrative, hm, hg]

/-- Report used by the C7 and C10 witnesses. -/
def reportW7 : ClientReport :=
  { current := ⟨100, some 2, some 300⟩
    prev := sentinelMetrics
    delta := mkDelta ⟨100, some 2, some 300⟩ sentinelMetrics
    best_channel := "Search"
    best_channel_roi := 2
    trend_data := []
    narrative := "Pending..." }

/-- Witness for C7: with no usable model, the report survives with its
metrics intact and the demo-mode fallback narrative. -/
theorem narrative_fallback_spec_witness :
    (("Acme", reportW7) ∈ [("Acme", reportW7)])
    ∧ (∃ rr, ("Acme", rr) ∈ generate_report_text false (fun _ _ => none) [("Acme", reportW7)]
        ∧ rr.current = reportW7.current
        ∧ rr.narrative = "Demo Mode: AI analysis skipped.") := by
  have h := (narrative_fallback_spec false (fun _ _ => none) [("Acme", reportW7)]).2
      "Acme" reportW7 (List.mem_singleton_self _)
  obtain ⟨rr, hmem, hcur, -, -, -, -, -, hdemo, -, -⟩ := h
  exact ⟨List.mem_singleton_self _, rr, hmem, hcur, hdemo rfl⟩

/-- Dataset for the C8 counterexample: client "A" has a previous-period
record whose acquisition cost is 0, so the aggregated previous spend — the
spend-delta divisor — is zero. -/
def recsW8 : List Record :=
  [⟨⟨2024, 2, 10⟩, "A", "Search", 100, 2, 2⟩,
   ⟨⟨2024, 1, 5⟩, "A", "Search", 0, 2, 2⟩]

/-- C8 counterexample: with true previous-period data of zero total spend
the spend-delta divisor is zero and the result non-finite (modelled
`none`): the division-by-zero case is reachable even though the sentinel
is never involved. -/
theorem delta_zero_divisor_reachable :
    (analyze recsW8).map (fun p => (p.1, p.2.prev.spend, p.2.delta.spend_pct))
      = [("A", 0, none)] := by
  show [("A", (getMetrics (prevDf recsW8 "A")).spend,
        (mkDelta (getMetrics (currDf recsW8 "A")) (getMetrics (prevDf recsW8 "A"))).spend_pct)]
      = [("A", 0, none)]
  have h0 : (getMetrics (prevDf recsW8 "A")).spend = 0 := by
    have hs : (getMetrics (prevDf recsW8 "A")).spend = 0 + 0 := rfl
    rw [hs]; norm_num
  simp [mkDelta, deltaPctQ, h0]

/-- C8 amended: the sentinel substitution makes the division-by-zero branch
unreachable exactly in the no-previous-records case: there every divisor is
1 and all three deltas are defined.  (When previous-period records do
exist, the divisor is the aggregated previous metric and can be zero.) -/
theorem sentinel_divisor_spec (records : List Record) (company : String) (r : ClientReport)
    (h : (company, r) ∈ analyze records) (hprev : (prevDf records company).isEmpty = true) :
    r.prev = sentinelMetrics
    ∧ r.prev.spend ≠ 0 ∧ r.prev.roi = some 1 ∧ r.prev.conv = some 1
    ∧ (r.delta.spend_pct).isSome ∧ (r.delta.roi_pct).isSome ∧ (r.delta.conv_pct).isSome := by
  have hm := ((mem_analyze records company r).1 h).2
  obtain ⟨hce, hcur, hprev', hdelta, -, -, -, -⟩ := makeReport_eq_some records company r hm
  simp only [hprev, if_true] at hprev'
  have hne : (currDf records company) ≠ [] := by
    intro hnil
    rw [hnil] at hce
    exact Bool.noConfusion hce
  obtain ⟨x, xs, hx⟩ := List.exists_cons_of_ne_nil hne
  refine ⟨hprev', ?_, ?_, ?_, ?_, ?_, ?_⟩
  · rw [hprev']; norm_num [sentinelMetrics]
  · rw [hprev']; simp [sentinelMetrics]
  · rw [hprev']; simp [sentinelMetrics]
  · rw [hdelta, hprev']
    simp [mkDelta, deltaPctQ, sentinelMetrics]
  · rw [hdelta, hprev', hcur, hx]
    simp [mkDelta, deltaPct, deltaPctQ, sentinelMetrics, getMetrics, meanOpt]
  · rw [hdelta, hprev', hcur, hx]
    simp [mkDelta, deltaPct, deltaPctQ, sentinelMetrics, getMetrics, meanOpt]

/-- Dataset for the C8 witness: client "A" has no previous-period
records. -/
def recsW8b : List Record := [⟨⟨2024, 2, 10⟩, "A", "Search", 100, 2, 2⟩]

/-- The (unique) report of the `recsW8b` run, written as the pipeline
computes it. -/
def reportW8b : ClientReport :=
  { current := getMetrics (currDf recsW8b "A")
    prev := if (prevDf recsW8b "A").isEmpty then sentinelMetrics
      else getMetrics (prevDf recsW8b "A")
    delta := mkDelta (getMetrics (currDf recsW8b "A"))
      (if (prevDf recsW8b "A").isEmpty then sentinelMetrics
       else getMetrics (prevDf recsW8b "A"))
    best_channel := (match bestChannelStats (currDf recsW8b "A") with
        | some s => s | none => ("N/A", 0)).1
    best_channel_roi := (match bestChannelStats (currDf recsW8b "A") with
        | some s => s | none => ("N/A", 0)).2
    trend_data := trendData (currDf recsW8b "A")
    narrative := "Pending..." }

/-- Witness for the amended C8 on `recsW8b`: no previous-period records, so
the previous MetricSet is the sentinel and all three deltas are defined. -/
theorem sentinel_divisor_spec_witness :
    (("A", reportW8b) ∈ analyze recsW8b)
    ∧ (prevDf recsW8b "A").isEmpty = true
    ∧ reportW8b.prev = sentinelMetrics
    ∧ (reportW8b.delta.spend_pct).isSome := by
  have heval : analyze recsW8b = [("A", reportW8b)] := rfl
  have hmem : ("A", reportW8b) ∈ analyze recsW8b := by
    rw [heval]; exact List.mem_singleton_self _
  have hp : (prevDf recsW8b "A").isEmpty = true := by decide
  obtain ⟨h1, -, -, -, h5, -, -⟩ := sentinel_divisor_spec recsW8b "A" reportW8b hmem hp
  exact ⟨hmem, hp, h1, h5⟩

/-- C9: each run yields exactly one report per distinct client that has at
least one current-period record: the output's company list is exactly the
distinct companies whose current-period subset is non-empty, with no
duplicates, and a client with no current-period records yields no report
at all. -/
theorem one_report_per_client_spec (records : List Record) :
    (analyze records).map Prod.fst
      = (companies records).filter (fun c => !(currDf records c).isEmpty)
    ∧ ((analyze records).map Prod.fst).Nodup
    ∧ (∀ c, c ∈ (analyze records).map Prod.fst ↔
        c ∈ companies records ∧ (currDf records c).isEmpty = false) := by
  have h1 : (analyze records).map Prod.fst
      = (companies records).filter (fun c => !(currDf records c).isEmpty) :=
    map_fst_filterMap_reports records (companies records)
  refine ⟨h1, ?_, ?_⟩
  · rw [h1]
    exact (nodup_unique _).filter _
  · intro c
    rw [h1, List.mem_filter]
    simp [Bool.not_eq_true']

/-- C10: the narrative stage modifies only the narrative field: entry `i` of
the output has the same company and identical current, previous, delta,
best-channel, best-channel-ROI and trend fields as entry `i` of the
input. -/
theorem narrative_frame_spec (hasModel : Bool) (gen : String → ClientReport → Option String)
    (reports : List (String × ClientReport)) (i : Nat) (h : i < reports.length) :
    ∃ h2 : i < (generate_report_text hasModel gen reports).length,
      ((generate_report_text hasModel gen reports).get ⟨i, h2⟩).1 = (reports.get ⟨i, h⟩).1
      ∧ ((generate_report_text hasModel gen reports).get ⟨i, h2⟩).2.current
          = (reports.get ⟨i, h⟩).2.current
      ∧ ((generate_report_text hasModel gen reports).get ⟨i, h2⟩).2.prev
          = (reports.get ⟨i, h⟩).2.prev
      ∧ ((generate_report_text hasModel gen reports).get ⟨i, h2⟩).2.delta
          = (reports.get ⟨i, h⟩).2.delta
      ∧ ((generate_report_text hasModel gen reports).get ⟨i, h2⟩).2.best_channel
          = (reports.get ⟨i, h⟩).2.best_channel
      ∧ ((generate_report_text hasModel gen reports).get ⟨i, h2⟩).2.best_channel_roi
          = (reports.get ⟨i, h⟩).2.best_channel_roi
      ∧ ((generate_report_text hasModel gen reports).get ⟨i, h2⟩).2.trend_data
          = (reports.get ⟨i, h⟩).2.trend_data := by
  have hlen : (generate_report_text hasModel gen reports).length = reports.length := by
    simp [generate_report_text]
  refine ⟨hlen ▸ h, ?_, ?_, ?_, ?_, ?_, ?_, ?_⟩ <;>
    simp [generate_report_text, List.get_eq_getElem, List.getElem_map, applyNarrative]

/-- Witness for C10 at index 0 of a singleton report list. -/
theorem narrative_frame_spec_witness :
    (0 < ([("Acme", reportW7)] : List (String × ClientReport)).length)
    ∧ (∃ h2 : 0 < (generate_report_text true (fun _ _ => none) [("Acme", reportW7)]).length,
        ((generate_report_text true (fun _ _ => none) [("Acme", reportW7)]).get ⟨0, h2⟩).2.current
          = reportW7.current) := by
  have h0 : 0 < ([("Acme", reportW7)] : List (String × ClientReport)).length := by decide
  obtain ⟨h2, -, hcur, -, -, -, -, -⟩ :=
    narrative_frame_spec true (fun _ _ => none) [("Acme", reportW7)] 0 h0
  exact ⟨h0, h2, hcur⟩

end TrendSpotter
